import Mathlib

/-!
# consul-example: client, server and version selection

A shallow embedding of `main.go`, `demo_server.go` and `demo_client.go`.

* Go `string` is `String`; Go `int` is `Int` (the 64-bit range is a subset of it) and the
  conversion `uint(x)` is reduction modulo `2 ^ 64`.
* A Go `error` is a `GoError`; a `nil` error is `none`.
* Calls that leave the process (directory service, name service, sockets, clock) are
  replaced by their outcome, passed in as an argument, and every effect of the code on the
  outside is recorded, in program order, in a list of events.
-/

namespace ConsulExample

/-! ## Errors and formatting -/

/-- A Go `error` value: `io.EOF`, an error that carries a message (handed back by a library
call or built by `fmt.Errorf` without a `%w` verb), or the result of `fmt.Errorf` with a `%w`
verb: the text before the verb and the wrapped operand, or `errorfNil` when the operand is
nil. -/
inductive GoError where
  | eof : GoError
  | ext (msg : String) : GoError
  | errorf (text : String) (cause : GoError) : GoError
  | errorfNil (text : String) : GoError
  deriving DecidableEq

/-- The method `Error()`: `io.EOF` reads `EOF`, and `%w` of a nil operand prints as
`%!w(<nil>)`. -/
def GoError.Error : GoError → String
  | .eof => "EOF"
  | .ext msg => msg
  | .errorf text e => text ++ e.Error
  | .errorfNil text => text ++ "%!w(<nil>)"

/-- The decimal digit `d` (for `d < 10`) as a character. -/
def digitChar (d : Nat) : Char := Char.ofNat (48 + d)

/-- Decimal digits of `n`, most significant first; `fuel` bounds the number of digits. -/
def fmtNatAux : Nat → Nat → List Char
  | 0, _ => []
  | fuel + 1, n => if n < 10 then [digitChar n] else fmtNatAux fuel (n / 10) ++ [digitChar (n % 10)]

/-- The verb `%d` on a non-negative integer. -/
def fmtNat (n : Nat) : List Char := fmtNatAux (n + 1) n

/-- The verb `%d` on a Go `int`: a minus sign for negative values, then the decimal digits. -/
def fmtInt (i : Int) : String :=
  if i < 0 then String.mk ('-' :: fmtNat i.natAbs) else String.mk (fmtNat i.natAbs)

/-- The verb `%-Ns`: the operand, padded with spaces on the right to `width` characters. -/
def padRight (width : Nat) (s : String) : String :=
  s ++ String.mk (List.replicate (width - s.length) ' ')

/-- Go `unicode.IsSpace`. -/
def isSpace (c : Char) : Bool :=
  let n := c.toNat
  (9 ≤ n && n ≤ 13) || n = 32 || n = 0x85 || n = 0xA0 || n = 0x1680 ||
  (0x2000 ≤ n && n ≤ 0x200a) || n = 0x2028 || n = 0x2029 || n = 0x202f || n = 0x205f ||
  n = 0x3000

/-- Go `strings.TrimSpace`: drops the leading and the trailing white space. -/
def TrimSpace (s : String) : String :=
  String.mk (((s.data.dropWhile isSpace).reverse.dropWhile isSpace).reverse)

/-- Go `uint(x)` for an `int` operand on a 64-bit platform. -/
def uint (x : Int) : Nat := (x % (2 ^ 64 : Int)).toNat

/-! ## main.go: constants -/

/-- The name of the service registered with Consul. -/
def serviceName : String := "consul-demo"

/-! ## demo_server.go: the protocol catalog -/

/-- A protocol version: its tag, the message to expect from a client, and the reply to
send to the client. -/
structure serverProtocol where
  version : String
  send : String
  reply : String
  deriving DecidableEq

/-- The shared catalog of protocol versions. -/
def serverVersions : List serverProtocol :=
  [ ⟨"v2", "syn", "ack"⟩,
    ⟨"v1", "ping", "pong"⟩ ]

/-- Modelled from the spec: the field `expect` that `demoClient.send` reads from a
`serverProtocol` is not declared by the struct in `demo_server.go`. The spec has the initiator
write "the protocol's expected request token", and the struct documents its request field
`send` as "The message to expect from a client"; `expect` is that field. -/
def serverProtocol.expect (p : serverProtocol) : String := p.send

/-! ## Connections -/

/-- One TCP connection as seen from the reading side: the characters that arrive, the error
that ends the stream after them (`io.EOF` when the peer closes), and the outcome of a write. -/
structure Conn where
  incoming : List Char
  ending : GoError
  writeErr : Option GoError
  deriving DecidableEq

/-- Go `bufio.Reader.ReadString(delim)`: the data up to and including the first delimiter; when
the stream ends before a delimiter, the data read so far together with the error. -/
def readStringAux (delim : Char) (ending : GoError) : List Char → List Char × Option GoError
  | [] => ([], some ending)
  | c :: cs =>
    if c = delim then ([c], none)
    else
      let r := readStringAux delim ending cs
      (c :: r.1, r.2)

/-- The call `bufio.NewReader(conn).ReadString(delim)`. -/
def ReadString (conn : Conn) (delim : Char) : String × Option GoError :=
  let r := readStringAux delim conn.ending conn.incoming
  (String.mk r.1, r.2)

/-- `fmt.Fprintln(conn, s)`: one write of the operand followed by a newline. -/
def Fprintln (s : String) : String := s ++ "\n"

/-- What one side does on a connection and on its own output streams. -/
inductive ConnEvent where
  | dial (network : String) (addr : String) : ConnEvent
  | write (data : String) : ConnEvent
  | log (line : String) : ConnEvent
  | print (text : String) : ConnEvent
  | close : ConnEvent
  deriving DecidableEq

/-! ## demo_server.go: the per-connection handler of `loop` -/

/-- The body of the goroutine that `demoServer.loop` starts for an accepted connection. The
deferred `conn.Close()` is the last event on every path. -/
def handle (protocol : serverProtocol) (conn : Conn) : List ConnEvent :=
  let r := ReadString conn '\n'
  let body := r.1
  match r.2 with
  | some err =>
    if err = GoError.eof then
      [ConnEvent.close]
    else
      [ConnEvent.log ("❌ ERROR: Unable to read data from connection: " ++ err.Error),
       ConnEvent.close]
  | none =>
    (if TrimSpace body ≠ protocol.send then
      [ConnEvent.log ("❌ WARNING: Message received \x27" ++ TrimSpace body ++
        "\x27did not match expected message " ++ protocol.send)]
     else []) ++
    [ConnEvent.print ("✔️ Received data \x27" ++ TrimSpace body ++ "\x27. Returning data \x27" ++
        protocol.reply ++ "\x27.\n"),
     ConnEvent.write (Fprintln protocol.reply)] ++
    (match conn.writeErr with
     | some err =>
       [ConnEvent.log ("❌ ERROR: Unable to send data to incoming connection: " ++ err.Error)]
     | none => []) ++
    [ConnEvent.close]

/-! ## demo_server.go: registration and one server cycle -/

/-- The health check of a registration. -/
structure AgentServiceCheck where
  CheckID : String
  Interval : String
  TCP : String
  deriving DecidableEq

/-- The registration submitted to the directory service. -/
structure AgentServiceRegistration where
  ID : String
  Name : String
  Port : Int
  Check : AgentServiceCheck
  Tags : List String
  Meta : List (String × String)
  deriving DecidableEq

/-- What the server cycle does to the directory service, the network and the log. -/
inductive Event where
  | ServiceRegister (reg : AgentServiceRegistration) : Event
  | ServiceDeregister (serviceID : String) : Event
  | Listen (network : String) (addr : String) : Event
  | watch : Event
  | Accept : Event
  | go (handler : List ConnEvent) : Event
  | log (line : String) : Event
  deriving DecidableEq

/-- The outcomes of the calls one server cycle makes: the error of `ServiceRegister`, the
error of `net.Listen`, and the connections that `Accept` hands out before the listener is
closed (by the watcher, at the latest when the cycle's ten seconds are over). -/
structure ServerWorld where
  registerErr : Option GoError
  listenErr : Option GoError
  accepted : List Conn
  deriving DecidableEq

/-- The identifier `fmt.Sprintf("%s:%d", name, port)`. -/
def serviceID (name : String) (port : Int) : String := name ++ ":" ++ fmtInt port

/-- The function `demoServer.register`: the identifier, the error, and the call made. -/
def register (registerErr : Option GoError) (name : String) (port : Int)
    (protocol : serverProtocol) : (String × Option GoError) × List Event :=
  let serviceID := serviceID name port
  let reg : AgentServiceRegistration :=
    { ID := serviceID
      Name := name
      Port := port
      Check :=
        { CheckID := "health-" ++ serviceID
          Interval := "1s"
          TCP := "127.0.0.1:" ++ fmtInt port }
      Tags := [protocol.version]
      Meta := [("version", protocol.version)] }
  let err := registerErr
  let err :=
    match err with
    | some e => some (GoError.errorf "Unable to register service in Consul: " e)
    | none => none
  ((serviceID, err), [Event.ServiceRegister reg])

/-- The function `demoServer.loop`: the watcher goroutine is started, every accepted connection
is handed to a goroutine of its own, and the failing `Accept` ends the loop. -/
def loop (accepted : List Conn) (protocol : serverProtocol) : List Event :=
  [Event.watch] ++
  (accepted.map (fun conn => [Event.Accept, Event.go (handle protocol conn)])).flatten ++
  [Event.Accept, Event.log "Shutting down listener"]

/-- The function `demoServer.begin`. The deferred `ServiceDeregister(serviceID)` is installed
after a successful registration and runs when the function returns. -/
def begin (w : ServerWorld) (port : Int) (protocol : serverProtocol) :
    Option GoError × List Event :=
  let r := register w.registerErr serviceName port protocol
  let serviceID := r.1.1
  match r.1.2 with
  | some err => (some err, r.2)
  | none =>
    let deferred := [Event.ServiceDeregister serviceID]
    let addr := "127.0.0.1:" ++ fmtInt port
    let t := r.2 ++ [Event.Listen "tcp" addr]
    match w.listenErr with
    | some err => (some (GoError.errorf "Unable to bind to address: " err), t ++ deferred)
    | none =>
      let t := t ++ [Event.log ("Server listening on " ++ addr ++ " using the " ++
        protocol.version ++ " protocol\n")]
      let t := t ++ loop w.accepted protocol
      (none, t ++ deferred)

/-! ## demo_client.go: the two resolution strategies -/

/-- The result of a resolution: the method label, the address, the port (a Go `uint`) and
the protocol. -/
structure serviceEntry where
  method : String
  addr : String
  port : Nat
  protocol : serverProtocol
  deriving DecidableEq

/-- The zero value of `serviceEntry`, which a named result holds until it is assigned. -/
def serviceEntry.zero : serviceEntry := ⟨"", "", 0, ⟨"", "", ""⟩⟩

/-- How a call ends: it returns its pair of results, or the goroutine panics. -/
inductive Result (α : Type) where
  | ret (val : α) (err : Option GoError) : Result α
  | panic (msg : String) : Result α
  deriving DecidableEq

/-- A service record of `net.LookupSRV`; `Port` is a `uint16`. -/
structure SRV where
  Target : String
  Port : Nat
  deriving DecidableEq

/-- An address of `net.LookupIPAddr`, by the text its method `String()` returns. -/
structure IPAddr where
  String : String
  deriving DecidableEq

/-- The name service: the records and the error that `LookupSRV(ctx, service, proto, name)`
and `LookupIPAddr(ctx, host)` hand back. A query that runs into the two-second timeout hands
back an error. -/
structure Resolver where
  LookupSRV : String → String → String → List SRV × Option GoError
  LookupIPAddr : String → List IPAddr × Option GoError

/-- The function `demoClient.resolveDNS`. Indexing `ips[0]` panics on an empty slice. -/
def resolveDNS (resolver : Resolver) (name : String) (protocol : serverProtocol) :
    Result serviceEntry :=
  let ret := serviceEntry.zero
  let r := resolver.LookupSRV name protocol.version "service.consul"
  let srv := r.1
  let err := r.2
  if err ≠ none ∨ srv.length = 0 then
    let text := "Unable to lookup SRV for service " ++ name ++ " with DNS for version " ++
      protocol.version ++ ": "
    Result.ret ret (some (match err with
      | some e => GoError.errorf text e
      | none => GoError.errorfNil text))
  else
    let r := resolver.LookupIPAddr (name ++ ".service.consul")
    let ips := r.1
    let err := r.2
    match err with
    | some e =>
      Result.ret ret (some (GoError.errorf ("Unable to lookup IP for service " ++ name ++
        " with DNS for version " ++ protocol.version ++ ": ") e))
    | none =>
      match ips, srv with
      | [], _ => Result.panic "runtime error: index out of range [0] with length 0"
      | _ :: _, [] => Result.panic "runtime error: index out of range [0] with length 0"
      | ip :: _, s :: _ =>
        Result.ret { method := "DNS-SRV", addr := ip.String, port := s.Port, protocol := protocol }
          none

/-- The part of a directory entry that the client reads: `Service.Address` and
`Service.Port` (a Go `int`). -/
structure AgentService where
  Address : String
  Port : Int
  deriving DecidableEq

/-- An entry of the health query. -/
structure ServiceEntry where
  Service : AgentService
  deriving DecidableEq

/-- The directory service: the entries and the error that
`Health().Service(service, tag, passingOnly, nil)` hands back. -/
structure Health where
  Service : String → String → Bool → List ServiceEntry × Option GoError

/-- The function `demoClient.resolveConsul`. -/
def resolveConsul (health : Health) (name : String) (protocol : serverProtocol) :
    Result serviceEntry :=
  let ret := serviceEntry.zero
  let r := health.Service name protocol.version true
  let addrs := r.1
  let err := r.2
  match err with
  | some e =>
    Result.ret ret (some (GoError.errorf ("Unable to lookup service " ++ name ++
      " with Consul for version " ++ protocol.version ++ ": ") e))
  | none =>
    if addrs.length < 1 then
      Result.ret ret (some (GoError.ext ("No valid Consul services published for name " ++ name ++
        " under version " ++ protocol.version)))
    else
      match addrs with
      | [] => Result.panic "runtime error: index out of range [0] with length 0"
      | a :: _ =>
        Result.ret
          { method := "Consul", addr := a.Service.Address, port := uint a.Service.Port,
            protocol := protocol }
          none

/-! ## demo_client.go: one exchange -/

/-- The outcome of `net.Dial`: an error, or the connection. -/
structure Dialer where
  dialErr : Option GoError
  conn : Conn

/-- The function `demoClient.send`: the error it returns and what it did. The deferred
`conn.Close()` is the last event once the connection is open. -/
def send (d : Dialer) (svc : serviceEntry) : Option GoError × List ConnEvent :=
  let addr := svc.addr ++ ":" ++ String.mk (fmtNat svc.port)
  let t := [ConnEvent.dial "tcp" addr]
  match d.dialErr with
  | some err =>
    (some (GoError.errorf ("Unable to dial a connection to " ++ addr ++ ": ") err), t)
  | none =>
    let conn := d.conn
    let t := t ++
      [ConnEvent.print ("Looked up with " ++ padRight 7 svc.method ++ "  Address: " ++
        padRight 40 addr ++ " Sending " ++ padRight 4 svc.protocol.expect ++ " using the " ++
        svc.protocol.version ++ " protocol..."),
       ConnEvent.write (Fprintln svc.protocol.expect)]
    match conn.writeErr with
    | some err =>
      (some (GoError.errorf "Unable to send data to connection: " err), t ++ [ConnEvent.close])
    | none =>
      let r := ReadString conn '\n'
      let status := r.1
      match r.2 with
      | some err =>
        (some (GoError.errorf "Unable to receive data back from server: " err),
          t ++ [ConnEvent.close])
      | none =>
        let t := t ++
          [ConnEvent.print ("Received " ++ padRight 4 (TrimSpace status) ++ " in response\n")]
        let t := t ++
          (if TrimSpace status ≠ svc.protocol.reply then
            [ConnEvent.log ("WARNING: Message received did not match expected message" ++
              svc.protocol.reply)]
           else [])
        (none, t ++ [ConnEvent.close])

/-! ## demo_client.go: one tick of `Start` -/

/-- What one client tick does: it calls the resolution method at an index of `methods`,
it performs an exchange, it writes a line to the log. -/
inductive TickEvent where
  | resolve (method : Nat) (name : String) (protocol : serverProtocol) : TickEvent
  | send (svc : serviceEntry) : TickEvent
  | log (line : String) : TickEvent
  deriving DecidableEq

/-- The surroundings of one client tick. Calls are numbered from zero in the order the tick
makes them: `now i` is what `time.Now().Unix()` reads before the call number `i`, and
`resolveDNS i` and `resolveConsul i` are what the two methods hand back when they are the
call number `i`. `send` is the error of the exchange with an endpoint. -/
structure ClientWorld where
  /-- Seconds since 1970, which the clock of a running system counts upwards from zero. -/
  now : Nat → Nat
  resolveDNS : Nat → String → serverProtocol → serviceEntry × Option GoError
  resolveConsul : Nat → String → serverProtocol → serviceEntry × Option GoError
  send : serviceEntry → Option GoError

/-- The slice `methods` of `Start`: index 0 is `resolveDNS`, index 1 is `resolveConsul`. -/
def methods (w : ClientWorld) (i : Nat) :
    List (String → serverProtocol → serviceEntry × Option GoError) :=
  [w.resolveDNS i, w.resolveConsul i]

/-- The loop `for _, protocol := range enabledProtocols` of a tick, from call number `i` on:
the variables `addr` and `err` after the loop, and the calls made. -/
def resolveLoop (w : ClientWorld) :
    Nat → List serverProtocol → serviceEntry × Option GoError →
      (serviceEntry × Option GoError) × List TickEvent
  | _, [], st => (st, [])
  | i, protocol :: rest, _ =>
    let method := w.now i % (methods w i).length
    match (methods w i)[method]? with
    | none => ((serviceEntry.zero, none), []) -- out of range: never, `method` is below the length
    | some f =>
      let r := f serviceName protocol
      if r.2 = none then
        (r, [TickEvent.resolve method serviceName protocol])
      else
        let s := resolveLoop w (i + 1) rest r
        (s.1, TickEvent.resolve method serviceName protocol :: s.2)

/-- The case `<-ticker.C` of `Start`. The result `err` of `Start` is a variable of the whole
function: `err` is its value when the tick begins, and the first component of the result is
its value when the tick ends. -/
def tick (w : ClientWorld) (enabledProtocols : List serverProtocol) (err : Option GoError) :
    Option GoError × List TickEvent :=
  let addr := serviceEntry.zero
  let s := resolveLoop w 0 enabledProtocols (addr, err)
  let addr := s.1.1
  let err := s.1.2
  match err with
  | some e => (err, s.2 ++ [TickEvent.log e.Error])
  | none =>
    match w.send addr with
    | some e => (err, s.2 ++ [TickEvent.send addr, TickEvent.log e.Error])
    | none => (err, s.2 ++ [TickEvent.send addr])

/-! ## main.go: the choice of the enabled versions -/

/-- The block "Determine which protocol versions have been enabled" of `main`: the variables
`versions` and `err` after it, for the value of the flag `-version`. -/
def selectVersions (flagVersion : String) : List serverProtocol × Option GoError :=
  let versions := serverVersions
  if flagVersion.length > 0 then
    let err := some (GoError.ext ("Invalid version specified: \x27" ++ flagVersion ++ "\x27"))
    serverVersions.foldl
      (fun st availableVersion =>
        if availableVersion.version = flagVersion then ([availableVersion], none) else st)
      (versions, err)
  else
    (versions, none)

/-- What `main` does once the directory client exists. -/
inductive MainEvent where
  | serverStart (versions : List serverProtocol) : MainEvent
  | clientStart (versions : List serverProtocol) : MainEvent
  | usage : MainEvent
  | log (line : String) : MainEvent
  | exit (code : Nat) : MainEvent
  deriving DecidableEq

/-- The function `main` from `flag.Parse()` on, for the value of the flag `-version` and the
first positional argument. Both `Start` methods return nil when they end. -/
def main (flagVersion : String) (arg0 : String) : List MainEvent :=
  let s := selectVersions flagVersion
  let versions := s.1
  let err := s.2
  let r : Option (Option GoError × List MainEvent) :=
    if err = none then
      if arg0 = "server" then some (none, [MainEvent.serverStart versions])
      else if arg0 = "client" then some (none, [MainEvent.clientStart versions])
      else if arg0 = "help" then none
      else some (some (GoError.ext "Invalid mode specified"), [])
    else some (err, [])
  match r with
  | none => [MainEvent.usage, MainEvent.exit 1]
  | some (some e, t) => t ++ [MainEvent.log ("ERROR: " ++ e.Error), MainEvent.usage, MainEvent.exit 1]
  | some (none, t) => t ++ [MainEvent.log "Bye!"]

/-! ## Observations on event lists -/

/-- Calls of `ServiceDeregister`. -/
def Event.isDeregister : Event → Bool
  | .ServiceDeregister _ => true
  | _ => false

/-- Calls of `net.Listen`. -/
def Event.isListen : Event → Bool
  | .Listen _ _ => true
  | _ => false

/-- Writes to the connection. -/
def ConnEvent.isWrite : ConnEvent → Bool
  | .write _ => true
  | _ => false

/-- Lines written to the log. -/
def ConnEvent.isLog : ConnEvent → Bool
  | .log _ => true
  | _ => false

/-- Loops started by `main`. -/
def MainEvent.isStart : MainEvent → Bool
  | .serverStart _ => true
  | .clientStart _ => true
  | _ => false

/-- Exchanges of a client tick. -/
def TickEvent.isSend : TickEvent → Bool
  | .send _ => true
  | _ => false

/-- Reads a list of decimal digits back as a number. -/
def parseNat (cs : List Char) : Nat :=
  cs.foldl (fun a c => 10 * a + (c.toNat - 48)) 0

/-- The outcome of the one method that call number `i` of a tick invokes for a protocol:
`resolveDNS` when the clock reads an even second, `resolveConsul` when it reads an odd one. -/
def chosen (w : ClientWorld) (i : Nat) (protocol : serverProtocol) :
    serviceEntry × Option GoError :=
  if w.now i % 2 = 0 then w.resolveDNS i serviceName protocol
  else w.resolveConsul i serviceName protocol

/-- One resolution call per protocol of `ps`, in the order of `ps`, numbered from `i` on, each
at the index of `methods` that the clock gives. -/
def resolveEvents (w : ClientWorld) (i : Nat) (ps : List serverProtocol) : List TickEvent :=
  (ps.enumFrom i).map (fun x => TickEvent.resolve (w.now x.1 % 2) serviceName x.2)

/-! ## The registration identifier -/

theorem digitChar_toNat (d : Nat) (h : d < 10) : (digitChar d).toNat - 48 = d := by
  interval_cases d <;> decide

theorem digitChar_ne (d : Nat) (h : d < 10) : digitChar d ≠ ':' ∧ digitChar d ≠ '-' := by
  interval_cases d <;> decide

theorem parseNat_snoc (cs : List Char) (c : Char) :
    parseNat (cs ++ [c]) = 10 * parseNat cs + (c.toNat - 48) := by
  simp [parseNat, List.foldl_append]

theorem parseNat_fmtNatAux (fuel : Nat) : ∀ n, n < fuel → parseNat (fmtNatAux fuel n) = n := by
  induction fuel with
  | zero => intro n h; omega
  | succ fuel ih =>
    intro n h
    unfold fmtNatAux
    by_cases hn : n < 10
    · rw [if_pos hn]
      have := digitChar_toNat n hn
      simp [parseNat, this]
    · rw [if_neg hn, parseNat_snoc, ih (n / 10) (by omega),
        digitChar_toNat (n % 10) (Nat.mod_lt _ (by decide))]
      omega

theorem fmtNatAux_chars (fuel : Nat) :
    ∀ n, ∀ c ∈ fmtNatAux fuel n, c ≠ ':' ∧ c ≠ '-' := by
  induction fuel with
  | zero => intro n c hc; simp [fmtNatAux] at hc
  | succ fuel ih =>
    intro n c hc
    unfold fmtNatAux at hc
    by_cases hn : n < 10
    · rw [if_pos hn, List.mem_singleton] at hc
      subst hc
      exact digitChar_ne n hn
    · rw [if_neg hn, List.mem_append, List.mem_singleton] at hc
      rcases hc with hc | hc
      · exact ih _ c hc
      · subst hc
        exact digitChar_ne _ (Nat.mod_lt _ (by decide))

theorem fmtNat_injective (m n : Nat) (h : fmtNat m = fmtNat n) : m = n := by
  have hm := parseNat_fmtNatAux (m + 1) m (Nat.lt_succ_self m)
  have hn := parseNat_fmtNatAux (n + 1) n (Nat.lt_succ_self n)
  unfold fmtNat at h
  rw [h] at hm
  omega

theorem mk_inj (a b : List Char) (h : String.mk a = String.mk b) : a = b :=
  congrArg String.data h

theorem fmtInt_injective (i j : Int) (h : fmtInt i = fmtInt j) : i = j := by
  unfold fmtInt at h
  by_cases hi : i < 0 <;> by_cases hj : j < 0
  · rw [if_pos hi, if_pos hj] at h
    have := fmtNat_injective _ _ (List.cons.inj (mk_inj _ _ h)).2
    omega
  · rw [if_pos hi, if_neg hj] at h
    have hmem : '-' ∈ fmtNat j.natAbs := by
      rw [← mk_inj _ _ h]
      exact List.mem_cons_self _ _
    exact absurd rfl (fmtNatAux_chars _ _ _ hmem).2
  · rw [if_neg hi, if_pos hj] at h
    have hmem : '-' ∈ fmtNat i.natAbs := by
      rw [mk_inj _ _ h]
      exact List.mem_cons_self _ _
    exact absurd rfl (fmtNatAux_chars _ _ _ hmem).2
  · rw [if_neg hi, if_neg hj] at h
    have := fmtNat_injective _ _ (mk_inj _ _ h)
    omega

theorem fmtInt_no_colon (i : Int) : ':' ∉ (fmtInt i).data := by
  intro h
  unfold fmtInt at h
  by_cases hi : i < 0
  · rw [if_pos hi] at h
    simp only [List.mem_cons] at h
    rcases h with h | h
    · exact absurd h (by decide)
    · exact absurd rfl (fmtNatAux_chars _ _ _ h).1
  · rw [if_neg hi] at h
    exact absurd rfl (fmtNatAux_chars _ _ _ h).1

theorem append_colon_cancel (a b x y : List Char) (hx : ':' ∉ x) (hy : ':' ∉ y)
    (h : a ++ ':' :: x = b ++ ':' :: y) : a = b ∧ x = y := by
  induction a generalizing b with
  | nil =>
    cases b with
    | nil => exact ⟨rfl, by simpa using h⟩
    | cons c b =>
      simp only [List.nil_append, List.cons_append, List.cons.injEq] at h
      exact absurd (by rw [h.2]; simp) hx
  | cons c a ih =>
    cases b with
    | nil =>
      simp only [List.nil_append, List.cons_append, List.cons.injEq] at h
      exact absurd (by rw [← h.2]; simp) hy
    | cons d b =>
      simp only [List.cons_append, List.cons.injEq] at h
      obtain ⟨hab, hxy⟩ := ih b h.2
      exact ⟨by rw [h.1, hab], hxy⟩

/-- C9: the identifier that `register` returns and submits is `name:port` whatever the
protocol and the outcome of the call, and `name:port` is injective: two pairs of a name and
a port with the same identifier have the same name and the same port. -/
theorem serviceID_injective (name₁ name₂ : String) (port₁ port₂ : Int) :
    (∀ registerErr protocol,
      (register registerErr name₁ port₁ protocol).1.1 = serviceID name₁ port₁) ∧
    (serviceID name₁ port₁ = serviceID name₂ port₂ → name₁ = name₂ ∧ port₁ = port₂) := by
  refine ⟨fun _ _ => rfl, ?_⟩
  intro h
  have hd := congrArg String.data h
  simp only [serviceID, String.data_append] at hd
  rw [List.append_assoc, List.append_assoc, List.singleton_append,
    List.singleton_append] at hd
  obtain ⟨hn, hp⟩ := append_colon_cancel _ _ _ _ (fmtInt_no_colon _) (fmtInt_no_colon _) hd
  exact ⟨String.ext hn, fmtInt_injective _ _ (String.ext hp)⟩

theorem serviceID_injective_witness :
    serviceID "consul-demo" 10532 = "consul-demo:10532" ∧
      ("consul-demo" = "consul-demo" ∧ (10532 : Int) = 10532) :=
  ⟨by decide, (serviceID_injective "consul-demo" "consul-demo" 10532 10532).2 rfl⟩

/-! ## The server cycle -/

theorem loop_filter_isDeregister (accepted : List Conn) (protocol : serverProtocol) :
    (loop accepted protocol).filter Event.isDeregister = [] := by
  induction accepted with
  | nil => simp [loop, Event.isDeregister]
  | cons c cs ih =>
    simp only [loop, List.map_cons, List.flatten_cons, List.filter_append] at ih ⊢
    simp [Event.isDeregister]

/-- C1: one run of `begin` calls `ServiceDeregister` exactly once, with the identifier that
`register` returned, when the registration succeeded, whether `net.Listen` fails or the accept
loop runs and ends; when the registration failed it returns the error, never calls
`ServiceDeregister` and never calls `net.Listen`. -/
theorem begin_deregisters_exactly_once (w : ServerWorld) (port : Int)
    (protocol : serverProtocol) :
    (w.registerErr = none →
      (begin w port protocol).2.filter Event.isDeregister =
        [Event.ServiceDeregister (register w.registerErr serviceName port protocol).1.1]) ∧
    (w.registerErr ≠ none →
      (begin w port protocol).1 ≠ none ∧
      (begin w port protocol).2.filter Event.isDeregister = [] ∧
      (begin w port protocol).2.filter Event.isListen = []) := by
  obtain ⟨re, le, acc⟩ := w
  constructor
  · intro h
    simp only at h
    subst h
    cases le with
    | some e => simp [begin, register, Event.isDeregister]
    | none =>
      have hl := loop_filter_isDeregister acc protocol
      simp [begin, register, Event.isDeregister, List.filter_append, hl]
  · intro h
    cases re with
    | none => exact absurd rfl h
    | some e => simp [begin, register, Event.isDeregister, Event.isListen]

theorem begin_deregisters_exactly_once_witness :
    (begin ⟨none, some (GoError.ext "address already in use"), []⟩ 10532
        ⟨"v2", "syn", "ack"⟩).2.filter Event.isDeregister =
      [Event.ServiceDeregister
        (register none serviceName 10532 ⟨"v2", "syn", "ack"⟩).1.1] :=
  (begin_deregisters_exactly_once ⟨none, some (GoError.ext "address already in use"), []⟩ 10532
    ⟨"v2", "syn", "ack"⟩).1 rfl

/-! ## The exchange -/

/-- C3: `send` returns an error exactly when `net.Dial`, the write of the request line or the
read of the reply line fails, and it returns nil for every reply line that was read, whatever
the line is. -/
theorem send_error_iff (d : Dialer) (svc : serviceEntry) :
    ((send d svc).1 ≠ none ↔
      (d.dialErr ≠ none ∨ d.conn.writeErr ≠ none ∨ (ReadString d.conn '\n').2 ≠ none)) ∧
    (d.dialErr = none → d.conn.writeErr = none → (ReadString d.conn '\n').2 = none →
      (send d svc).1 = none) := by
  obtain ⟨de, conn⟩ := d
  cases de with
  | some e => simp [send]
  | none =>
    cases hw : conn.writeErr with
    | some e => simp [send, hw]
    | none =>
      cases hr : (ReadString conn '\n').2 with
      | some e => simp [send, hw, hr]
      | none => simp [send, hw, hr]

theorem send_error_iff_witness :
    (send ⟨none, ⟨"nack\n".data, GoError.eof, none⟩⟩
      ⟨"Consul", "127.0.0.1", 10532, ⟨"v2", "syn", "ack"⟩⟩).1 = none :=
  (send_error_iff ⟨none, ⟨"nack\n".data, GoError.eof, none⟩⟩
    ⟨"Consul", "127.0.0.1", 10532, ⟨"v2", "syn", "ack"⟩⟩).2 rfl rfl (by decide)

/-- C4: for every protocol and every line the handler reads, the handler writes the reply
token of the protocol followed by a newline, and nothing else, whether or not the trimmed
line is the request token of the protocol; on a mismatch the run is the run without the
mismatch with one warning line put in front of it. -/
theorem handle_replies_on_every_line (protocol : serverProtocol) (conn : Conn)
    (h : (ReadString conn '\n').2 = none) :
    (handle protocol conn).filter ConnEvent.isWrite =
      [ConnEvent.write (protocol.reply ++ "\n")] ∧
    (TrimSpace (ReadString conn '\n').1 ≠ protocol.send →
      handle protocol conn =
        ConnEvent.log ("❌ WARNING: Message received \x27" ++ TrimSpace (ReadString conn '\n').1 ++
          "\x27did not match expected message " ++ protocol.send) ::
        handle ⟨protocol.version, TrimSpace (ReadString conn '\n').1, protocol.reply⟩ conn) ∧
    (TrimSpace (ReadString conn '\n').1 = protocol.send →
      (conn.writeErr = none → (handle protocol conn).filter ConnEvent.isLog = [])) := by
  refine ⟨?_, ?_, ?_⟩
  · cases hw : conn.writeErr <;>
      by_cases hm : TrimSpace (ReadString conn '\n').1 = protocol.send <;>
      simp [handle, h, hw, hm, ConnEvent.isWrite, Fprintln]
  · intro hm
    cases hw : conn.writeErr <;> simp [handle, h, hw, hm]
  · intro hm hw
    simp [handle, h, hw, hm, ConnEvent.isLog]

theorem handle_replies_on_every_line_witness :
    (handle ⟨"v1", "ping", "pong"⟩ ⟨"syn\n".data, GoError.eof, none⟩).filter
      ConnEvent.isWrite = [ConnEvent.write ("pong" ++ "\n")] :=
  (handle_replies_on_every_line ⟨"v1", "ping", "pong"⟩ ⟨"syn\n".data, GoError.eof, none⟩
    (by decide)).1

/-- C5, as the claim states it, fails: the peer sends `syn` without a newline and closes;
the read fails after three characters were received, and the handler logs nothing. -/
theorem handle_partial_line_then_eof_is_silent :
    (ReadString ⟨"syn".data, GoError.eof, none⟩ '\n').2 ≠ none ∧
    (ReadString ⟨"syn".data, GoError.eof, none⟩ '\n').1 = "syn" ∧
    (handle ⟨"v2", "syn", "ack"⟩ ⟨"syn".data, GoError.eof, none⟩).filter ConnEvent.isLog = [] ∧
    ¬ ((handle ⟨"v2", "syn", "ack"⟩ ⟨"syn".data, GoError.eof, none⟩).filter ConnEvent.isLog = [] ↔
        ((ReadString ⟨"syn".data, GoError.eof, none⟩ '\n').2 = some GoError.eof ∧
          (ReadString ⟨"syn".data, GoError.eof, none⟩ '\n').1 = "")) := by
  decide

/-- C5, amended: for every read failure of the handler no reply is written; the handler logs
nothing exactly when the error of the read is `io.EOF`, with or without characters received
before it, and logs one error line for every other read failure. -/
theorem handle_read_failure (protocol : serverProtocol) (conn : Conn) (err : GoError)
    (h : (ReadString conn '\n').2 = some err) :
    (handle protocol conn).filter ConnEvent.isWrite = [] ∧
    ((handle protocol conn).filter ConnEvent.isLog = [] ↔ err = GoError.eof) ∧
    (err ≠ GoError.eof →
      handle protocol conn =
        [ConnEvent.log ("❌ ERROR: Unable to read data from connection: " ++ err.Error),
         ConnEvent.close]) := by
  by_cases he : err = GoError.eof <;>
    simp [handle, h, he, ConnEvent.isWrite, ConnEvent.isLog]

theorem handle_read_failure_witness :
    (handle ⟨"v2", "syn", "ack"⟩
      ⟨"sy".data, GoError.ext "connection reset by peer", none⟩).filter ConnEvent.isWrite = [] :=
  (handle_read_failure ⟨"v2", "syn", "ack"⟩
    ⟨"sy".data, GoError.ext "connection reset by peer", none⟩
    (GoError.ext "connection reset by peer") (by decide)).1

theorem send_writes_request (d : Dialer) (svc : serviceEntry) (hd : d.dialErr = none) :
    (send d svc).2.filter ConnEvent.isWrite =
      [ConnEvent.write (svc.protocol.send ++ "\n")] := by
  obtain ⟨de, conn⟩ := d
  simp only at hd
  subst hd
  cases hw : conn.writeErr with
  | some e => simp [send, hw, ConnEvent.isWrite, Fprintln, serverProtocol.expect]
  | none =>
    cases hr : (ReadString conn '\n').2 with
    | some e => simp [send, hw, hr, ConnEvent.isWrite, Fprintln, serverProtocol.expect]
    | none =>
      by_cases hm : TrimSpace (ReadString conn '\n').1 = svc.protocol.reply <;>
        simp [send, hw, hr, hm, ConnEvent.isWrite, Fprintln, serverProtocol.expect]

theorem handle_of_match (protocol : serverProtocol) (conn : Conn)
    (hr : (ReadString conn '\n').2 = none)
    (hm : TrimSpace (ReadString conn '\n').1 = protocol.send) (hw : conn.writeErr = none) :
    handle protocol conn =
      [ConnEvent.print ("✔️ Received data \x27" ++ TrimSpace (ReadString conn '\n').1 ++
        "\x27. Returning data \x27" ++ protocol.reply ++ "\x27.\n"),
       ConnEvent.write (Fprintln protocol.reply), ConnEvent.close] := by
  simp [handle, hr, hm, hw]

theorem send_of_match (d : Dialer) (svc : serviceEntry) (hd : d.dialErr = none)
    (hw : d.conn.writeErr = none) (hr : (ReadString d.conn '\n').2 = none)
    (hm : TrimSpace (ReadString d.conn '\n').1 = svc.protocol.reply) :
    send d svc =
      (none,
        [ConnEvent.dial "tcp" (svc.addr ++ ":" ++ String.mk (fmtNat svc.port)),
         ConnEvent.print ("Looked up with " ++ padRight 7 svc.method ++ "  Address: " ++
           padRight 40 (svc.addr ++ ":" ++ String.mk (fmtNat svc.port)) ++ " Sending " ++
           padRight 4 svc.protocol.expect ++ " using the " ++ svc.protocol.version ++
           " protocol..."),
         ConnEvent.write (Fprintln svc.protocol.expect),
         ConnEvent.print ("Received " ++ padRight 4 (TrimSpace (ReadString d.conn '\n').1) ++
           " in response\n"),
         ConnEvent.close]) := by
  simp [send, hd, hw, hr, hm]

/-- C2: for every version of the catalog used on both sides, the initiator writes the
request token of the version and a newline; the acceptor that receives this line finds no
mismatch, logs nothing and writes the reply token of the version and a newline; the initiator
that receives that line finds no mismatch, logs nothing and returns nil. For `v2` the two
lines are `syn` and `ack`, for `v1` they are `ping` and `pong`. -/
theorem exchange_same_version (p : serverProtocol) (hp : p ∈ serverVersions)
    (method addr : String) (port : Nat) (d : Dialer) (e₁ e₂ : GoError)
    (hd : d.dialErr = none) :
    (send d ⟨method, addr, port, p⟩).2.filter ConnEvent.isWrite =
      [ConnEvent.write (p.send ++ "\n")] ∧
    TrimSpace (ReadString ⟨(p.send ++ "\n").data, e₁, none⟩ '\n').1 = p.send ∧
    (handle p ⟨(p.send ++ "\n").data, e₁, none⟩).filter ConnEvent.isLog = [] ∧
    (handle p ⟨(p.send ++ "\n").data, e₁, none⟩).filter ConnEvent.isWrite =
      [ConnEvent.write (p.reply ++ "\n")] ∧
    TrimSpace (ReadString ⟨(p.reply ++ "\n").data, e₂, none⟩ '\n').1 = p.reply ∧
    (send ⟨none, ⟨(p.reply ++ "\n").data, e₂, none⟩⟩ ⟨method, addr, port, p⟩).1 = none ∧
    (send ⟨none, ⟨(p.reply ++ "\n").data, e₂, none⟩⟩ ⟨method, addr, port, p⟩).2.filter
      ConnEvent.isLog = [] ∧
    ((p.version = "v2" ∧ p.send = "syn" ∧ p.reply = "ack") ∨
      (p.version = "v1" ∧ p.send = "ping" ∧ p.reply = "pong")) := by
  have hsyn : TrimSpace (ReadString ⟨("syn" ++ "\n").data, e₁, none⟩ '\n').1 = "syn" := by
    simp [ReadString, readStringAux, TrimSpace]; decide
  have hping : TrimSpace (ReadString ⟨("ping" ++ "\n").data, e₁, none⟩ '\n').1 = "ping" := by
    simp [ReadString, readStringAux, TrimSpace]; decide
  have hack : TrimSpace (ReadString ⟨("ack" ++ "\n").data, e₂, none⟩ '\n').1 = "ack" := by
    simp [ReadString, readStringAux, TrimSpace]; decide
  have hpong : TrimSpace (ReadString ⟨("pong" ++ "\n").data, e₂, none⟩ '\n').1 = "pong" := by
    simp [ReadString, readStringAux, TrimSpace]; decide
  have rsyn : (ReadString ⟨("syn" ++ "\n").data, e₁, none⟩ '\n').2 = none := by
    simp [ReadString, readStringAux]
  have rping : (ReadString ⟨("ping" ++ "\n").data, e₁, none⟩ '\n').2 = none := by
    simp [ReadString, readStringAux]
  have rack : (ReadString ⟨("ack" ++ "\n").data, e₂, none⟩ '\n').2 = none := by
    simp [ReadString, readStringAux]
  have rpong : (ReadString ⟨("pong" ++ "\n").data, e₂, none⟩ '\n').2 = none := by
    simp [ReadString, readStringAux]
  have hw := send_writes_request d ⟨method, addr, port, p⟩ hd
  simp only [serverVersions, List.mem_cons, List.mem_singleton, List.not_mem_nil,
    or_false] at hp
  rcases hp with rfl | rfl
  · refine ⟨hw, hsyn, ?_, ?_, hack, ?_, ?_, Or.inl ⟨rfl, rfl, rfl⟩⟩
    · rw [handle_of_match _ _ rsyn hsyn rfl]; simp [ConnEvent.isLog]
    · rw [handle_of_match _ _ rsyn hsyn rfl]; simp [ConnEvent.isWrite, Fprintln]
    · rw [send_of_match _ _ rfl rfl rack hack]
    · rw [send_of_match _ _ rfl rfl rack hack]; simp [ConnEvent.isLog]
  · refine ⟨hw, hping, ?_, ?_, hpong, ?_, ?_, Or.inr ⟨rfl, rfl, rfl⟩⟩
    · rw [handle_of_match _ _ rping hping rfl]; simp [ConnEvent.isLog]
    · rw [handle_of_match _ _ rping hping rfl]; simp [ConnEvent.isWrite, Fprintln]
    · rw [send_of_match _ _ rfl rfl rpong hpong]
    · rw [send_of_match _ _ rfl rfl rpong hpong]; simp [ConnEvent.isLog]

theorem exchange_same_version_witness :
    (send ⟨none, ⟨"ack\n".data, GoError.eof, none⟩⟩
      ⟨"Consul", "127.0.0.1", 10532, ⟨"v2", "syn", "ack"⟩⟩).2.filter ConnEvent.isWrite =
      [ConnEvent.write ("syn" ++ "\n")] :=
  (exchange_same_version ⟨"v2", "syn", "ack"⟩ (by decide) "Consul" "127.0.0.1" 10532
    ⟨none, ⟨"ack\n".data, GoError.eof, none⟩⟩ GoError.eof GoError.eof rfl).1

/-! ## Resolution -/

/-- The function `resolveDNS` returns an error when the service-record
query fails or returns no record and when the host-record query fails, and it returns the
endpoint of the first address and the first port, labelled `DNS-SRV`, when both queries
return a record without an error. -/
theorem resolveDNS_returns (resolver : Resolver) (name : String) (protocol : serverProtocol) :
    (((resolver.LookupSRV name protocol.version "service.consul").2 ≠ none ∨
        (resolver.LookupSRV name protocol.version "service.consul").1 = []) →
      ∃ e, resolveDNS resolver name protocol = Result.ret serviceEntry.zero (some e)) ∧
    (∀ s ss, resolver.LookupSRV name protocol.version "service.consul" = (s :: ss, none) →
      (resolver.LookupIPAddr (name ++ ".service.consul")).2 ≠ none →
      ∃ e, resolveDNS resolver name protocol = Result.ret serviceEntry.zero (some e)) ∧
    (∀ s ss ip ips, resolver.LookupSRV name protocol.version "service.consul" = (s :: ss, none) →
      resolver.LookupIPAddr (name ++ ".service.consul") = (ip :: ips, none) →
      resolveDNS resolver name protocol =
        Result.ret ⟨"DNS-SRV", ip.String, s.Port, protocol⟩ none) := by
  refine ⟨?_, ?_, ?_⟩
  · intro h
    simp only [resolveDNS, List.length_eq_zero]
    rw [if_pos h]
    exact ⟨_, rfl⟩
  · intro s ss hs hi
    cases hq : (resolver.LookupIPAddr (name ++ ".service.consul")).2 with
    | none => exact absurd hq hi
    | some e => simp [resolveDNS, hs, hq]
  · intro s ss ip ips hs hi
    simp [resolveDNS, hs, hi]

/-- C6: the host-record query returns no address and no error after the service-record query
returned a record; `resolveDNS` does not return an error, it panics on `ips[0]`. -/
theorem resolveDNS_panics_on_empty_address_list :
    resolveDNS ⟨fun _ _ _ => ([⟨"node1.node.dc1.consul.", 10532⟩], none), fun _ => ([], none)⟩
        serviceName ⟨"v2", "syn", "ack"⟩ =
      Result.panic "runtime error: index out of range [0] with length 0" := by
  simp [resolveDNS]

/-- C7: `resolveConsul` returns an error exactly when the query for the healthy entries hands
back an error or no entry; otherwise it returns, without an error, the endpoint labelled
`Consul` with the given protocol, the address of the first entry and its port converted by
`uint`, which is the port of the first entry for every port from `0` to `2 ^ 64 - 1`. -/
theorem resolveConsul_first_entry (health : Health) (name : String)
    (protocol : serverProtocol) :
    ((∃ v e, resolveConsul health name protocol = Result.ret v (some e)) ↔
      ((health.Service name protocol.version true).2 ≠ none ∨
        (health.Service name protocol.version true).1 = [])) ∧
    (∀ a rest, health.Service name protocol.version true = (a :: rest, none) →
      resolveConsul health name protocol =
          Result.ret ⟨"Consul", a.Service.Address, uint a.Service.Port, protocol⟩ none ∧
        (0 ≤ a.Service.Port → a.Service.Port < 2 ^ 64 →
          (uint a.Service.Port : Int) = a.Service.Port)) := by
  refine ⟨?_, ?_⟩
  · rcases hq : health.Service name protocol.version true with ⟨addrs, err⟩
    cases err with
    | some e => simp [resolveConsul, hq]
    | none =>
      cases addrs with
      | nil => simp [resolveConsul, hq]
      | cons a rest => simp [resolveConsul, hq]
  · intro a rest hq
    refine ⟨by simp [resolveConsul, hq], ?_⟩
    intro h0 h1
    unfold uint
    rw [Int.emod_eq_of_lt h0 h1]
    exact Int.toNat_of_nonneg h0

theorem resolveConsul_first_entry_witness :
    resolveConsul ⟨fun _ _ _ => ([⟨⟨"127.0.0.1", 10532⟩⟩, ⟨⟨"10.0.0.7", 10600⟩⟩], none)⟩
        serviceName ⟨"v2", "syn", "ack"⟩ =
      Result.ret ⟨"Consul", "127.0.0.1", uint 10532, ⟨"v2", "syn", "ack"⟩⟩ none ∧
    ((uint 10532 : Nat) : Int) = 10532 :=
  ⟨((resolveConsul_first_entry
      ⟨fun _ _ _ => ([⟨⟨"127.0.0.1", 10532⟩⟩, ⟨⟨"10.0.0.7", 10600⟩⟩], none)⟩
      serviceName ⟨"v2", "syn", "ack"⟩).2 ⟨⟨"127.0.0.1", 10532⟩⟩ [⟨⟨"10.0.0.7", 10600⟩⟩] rfl).1,
    ((resolveConsul_first_entry
      ⟨fun _ _ _ => ([⟨⟨"127.0.0.1", 10532⟩⟩, ⟨⟨"10.0.0.7", 10600⟩⟩], none)⟩
      serviceName ⟨"v2", "syn", "ack"⟩).2 ⟨⟨"127.0.0.1", 10532⟩⟩ [⟨⟨"10.0.0.7", 10600⟩⟩] rfl).2
      (by decide) (by decide)⟩

/-! ## The choice of the enabled versions -/

/-- C8: for every value of the flag, the selection ends with the error
`Invalid version specified` exactly when the flag is non-empty and is the tag of no catalog
version, and then `main` starts neither loop, whatever the mode; in every other case the
enabled list is non-empty: the catalog itself for the empty flag, and otherwise the list of
the one catalog entry whose tag is the flag. -/
theorem selectVersions_spec (flagVersion : String) :
    ((selectVersions flagVersion).2 ≠ none ↔
      (flagVersion ≠ "" ∧ ∀ p ∈ serverVersions, p.version ≠ flagVersion)) ∧
    ((selectVersions flagVersion).2 ≠ none →
      (selectVersions flagVersion).2 =
          some (GoError.ext ("Invalid version specified: \x27" ++ flagVersion ++ "\x27")) ∧
        ∀ arg0, (main flagVersion arg0).filter MainEvent.isStart = []) ∧
    ((selectVersions flagVersion).2 = none →
      (selectVersions flagVersion).1 ≠ [] ∧
      (flagVersion = "" → (selectVersions flagVersion).1 = serverVersions) ∧
      (flagVersion ≠ "" →
        ∃ p ∈ serverVersions, p.version = flagVersion ∧ (selectVersions flagVersion).1 = [p])) := by
  by_cases h0 : flagVersion = ""
  · subst h0
    simp [selectVersions, serverVersions]
  · have hlen : flagVersion.length > 0 := by
      rcases flagVersion with ⟨cs⟩
      cases cs with
      | nil => exact absurd rfl h0
      | cons c cs => simp [String.length]
    by_cases h1 : flagVersion = "v1"
    · subst h1
      have hl : 0 < "v1".length := by decide
      simp [selectVersions, serverVersions, hl]
    · by_cases h2 : flagVersion = "v2"
      · subst h2
        have hl : 0 < "v2".length := by decide
        simp [selectVersions, serverVersions, hl]
      · have h1' : ¬ "v1" = flagVersion := fun h => h1 h.symm
        have h2' : ¬ "v2" = flagVersion := fun h => h2 h.symm
        simp [selectVersions, serverVersions, hlen, h0, h1', h2', main, MainEvent.isStart]

theorem selectVersions_spec_witness :
    (selectVersions "v3").2 =
        some (GoError.ext ("Invalid version specified: \x27" ++ "v3" ++ "\x27")) ∧
      ∀ arg0, (main "v3" arg0).filter MainEvent.isStart = [] :=
  (selectVersions_spec "v3").2.1 (by decide)

/-! ## The client tick -/

theorem resolveLoop_cons (w : ClientWorld) (i : Nat) (q : serverProtocol)
    (rest : List serverProtocol) (st : serviceEntry × Option GoError) :
    resolveLoop w i (q :: rest) st =
      if (chosen w i q).2 = none then
        (chosen w i q, [TickEvent.resolve (w.now i % 2) serviceName q])
      else
        ((resolveLoop w (i + 1) rest (chosen w i q)).1,
          TickEvent.resolve (w.now i % 2) serviceName q ::
            (resolveLoop w (i + 1) rest (chosen w i q)).2) := by
  rcases Nat.mod_two_eq_zero_or_one (w.now i) with h | h <;>
    simp [resolveLoop, methods, chosen, h]

theorem resolveEvents_cons (w : ClientWorld) (i : Nat) (q : serverProtocol)
    (rest : List serverProtocol) :
    resolveEvents w i (q :: rest) =
      TickEvent.resolve (w.now i % 2) serviceName q :: resolveEvents w (i + 1) rest := by
  simp [resolveEvents, List.enumFrom]

theorem resolveEvents_filter_isSend (w : ClientWorld) (i : Nat) (ps : List serverProtocol) :
    (resolveEvents w i ps).filter TickEvent.isSend = [] := by
  simp only [resolveEvents, List.filter_eq_nil_iff, List.mem_map]
  rintro a ⟨x, _, rfl⟩
  simp [TickEvent.isSend]

theorem resolveLoop_stops (w : ClientWorld) (p : serverProtocol) (post : List serverProtocol) :
    ∀ (pre : List serverProtocol) (i : Nat) (st : serviceEntry × Option GoError),
      (∀ x ∈ pre.enumFrom i, (chosen w x.1 x.2).2 ≠ none) →
      (chosen w (i + pre.length) p).2 = none →
      resolveLoop w i (pre ++ p :: post) st =
        (chosen w (i + pre.length) p, resolveEvents w i (pre ++ [p])) := by
  intro pre
  induction pre with
  | nil =>
    intro i st _ hp
    simp only [List.length_nil, Nat.add_zero] at hp
    rw [List.nil_append, resolveLoop_cons, if_pos hp]
    simp [resolveEvents, List.enumFrom]
  | cons q pre ih =>
    intro i st hpre hp
    have hq : (chosen w i q).2 ≠ none := hpre (i, q) (by simp [List.enumFrom])
    have hrest : ∀ x ∈ pre.enumFrom (i + 1), (chosen w x.1 x.2).2 ≠ none :=
      fun x hx => hpre x (by simp [List.enumFrom, hx])
    have hidx : i + (q :: pre).length = i + 1 + pre.length := by
      simp only [List.length_cons]; omega
    rw [hidx] at hp
    rw [List.cons_append, resolveLoop_cons, if_neg hq, ih (i + 1) _ hrest hp,
      List.cons_append, resolveEvents_cons, hidx]

theorem resolveLoop_exhausts (w : ClientWorld) (p : serverProtocol) :
    ∀ (pre : List serverProtocol) (i : Nat) (st : serviceEntry × Option GoError),
      (∀ x ∈ pre.enumFrom i, (chosen w x.1 x.2).2 ≠ none) →
      (chosen w (i + pre.length) p).2 ≠ none →
      resolveLoop w i (pre ++ [p]) st =
        (chosen w (i + pre.length) p, resolveEvents w i (pre ++ [p])) := by
  intro pre
  induction pre with
  | nil =>
    intro i st _ hp
    simp only [List.length_nil, Nat.add_zero] at hp
    rw [List.nil_append, resolveLoop_cons, if_neg hp]
    simp [resolveLoop, resolveEvents, List.enumFrom]
  | cons q pre ih =>
    intro i st hpre hp
    have hq : (chosen w i q).2 ≠ none := hpre (i, q) (by simp [List.enumFrom])
    have hrest : ∀ x ∈ pre.enumFrom (i + 1), (chosen w x.1 x.2).2 ≠ none :=
      fun x hx => hpre x (by simp [List.enumFrom, hx])
    have hidx : i + (q :: pre).length = i + 1 + pre.length := by
      simp only [List.length_cons]; omega
    rw [hidx] at hp
    rw [List.cons_append, resolveLoop_cons, if_neg hq, ih (i + 1) _ hrest hp,
      resolveEvents_cons, hidx]

/-- C10: in one tick over a non-empty list of protocols, the protocols are tried in the order
of the list, each by one call of the method at the index the clock gives modulo 2 (index 0 is
`resolveDNS`, index 1 is `resolveConsul`). When a protocol is the first whose call succeeds,
no later protocol is tried and the tick performs exactly one exchange, with the endpoint of
that call. When the call fails for every protocol, the tick performs no exchange and logs the
error of the call for the last protocol. -/
theorem tick_resolves_then_sends (w : ClientWorld) (err : Option GoError) :
    (∀ i, (methods w i)[0]? = some (w.resolveDNS i) ∧
      (methods w i)[1]? = some (w.resolveConsul i)) ∧
    (∀ pre p post,
      (∀ x ∈ pre.enumFrom 0, (chosen w x.1 x.2).2 ≠ none) →
      (chosen w pre.length p).2 = none →
      (tick w (pre ++ p :: post) err).2 =
          resolveEvents w 0 (pre ++ [p]) ++ TickEvent.send (chosen w pre.length p).1 ::
            (match w.send (chosen w pre.length p).1 with
             | some e => [TickEvent.log e.Error]
             | none => []) ∧
        (tick w (pre ++ p :: post) err).2.filter TickEvent.isSend =
          [TickEvent.send (chosen w pre.length p).1]) ∧
    (∀ pre p e,
      (∀ x ∈ pre.enumFrom 0, (chosen w x.1 x.2).2 ≠ none) →
      (chosen w pre.length p).2 = some e →
      (tick w (pre ++ [p]) err).2 = resolveEvents w 0 (pre ++ [p]) ++ [TickEvent.log e.Error] ∧
        (tick w (pre ++ [p]) err).2.filter TickEvent.isSend = []) := by
  refine ⟨fun i => ⟨rfl, rfl⟩, ?_, ?_⟩
  · intro pre p post hpre hp
    have hl := resolveLoop_stops w p post pre 0 (serviceEntry.zero, err) hpre
      (by rw [Nat.zero_add]; exact hp)
    rw [Nat.zero_add] at hl
    have hf := resolveEvents_filter_isSend w 0 (pre ++ [p])
    cases hs : w.send (chosen w pre.length p).1 with
    | none => simp [tick, hl, hp, hs, hf, List.filter_append, TickEvent.isSend]
    | some e => simp [tick, hl, hp, hs, hf, List.filter_append, TickEvent.isSend]
  · intro pre p e hpre hp
    have hl := resolveLoop_exhausts w p pre 0 (serviceEntry.zero, err) hpre
      (by rw [Nat.zero_add, hp]; exact Option.some_ne_none e)
    rw [Nat.zero_add] at hl
    have hf := resolveEvents_filter_isSend w 0 (pre ++ [p])
    simp [tick, hl, hp, hf, List.filter_append, TickEvent.isSend]

theorem tick_resolves_then_sends_witness :
    (tick
      ⟨fun _ => 1, fun _ _ _ => (serviceEntry.zero, some (GoError.ext "no such host")),
        fun _ _ p =>
          if p.version = "v1" then (⟨"Consul", "127.0.0.1", 10532, p⟩, none)
          else (serviceEntry.zero, some (GoError.ext "no entry")),
        fun _ => none⟩
      ([⟨"v2", "syn", "ack"⟩] ++ ⟨"v1", "ping", "pong"⟩ :: []) none).2.filter TickEvent.isSend =
      [TickEvent.send ⟨"Consul", "127.0.0.1", 10532, ⟨"v1", "ping", "pong"⟩⟩] :=
  ((tick_resolves_then_sends
    ⟨fun _ => 1, fun _ _ _ => (serviceEntry.zero, some (GoError.ext "no such host")),
      fun _ _ p =>
        if p.version = "v1" then (⟨"Consul", "127.0.0.1", 10532, p⟩, none)
        else (serviceEntry.zero, some (GoError.ext "no entry")),
      fun _ => none⟩ none).2.1 [⟨"v2", "syn", "ack"⟩] ⟨"v1", "ping", "pong"⟩ []
    (by decide) (by decide)).2

end ConsulExample
